import Mathlib

/-!
Verification of the capability registry and value-conversion layer of
mcp-smarterthings (src/types/capability-registry.ts together with the enums
of src/types/unified-device.ts), shallowly embedded in Lean 4.

Embedding conventions:
- JavaScript Map objects are embedded as insertion-ordered association
  lists. Map.set updates an existing key in place, keeping its position,
  and appends a fresh key at the end; iteration follows insertion order;
  Map.size is the number of distinct keys, which equals list length for
  every list built with mapSet from the empty list.
- The static classes CapabilityRegistry and ValueConversionRegistry hold
  mutable module-level state; here that state is passed explicitly as a
  value of type RegistryState or ConversionState.
- JavaScript numbers are embedded as rationals, and Math.round x as
  Int.floor (x + 1/2), which agrees with the IEEE-double computation on
  every input exercised in this development (small integers scaled by
  10, 3.6 or 2.55).
- Converter functions may throw (the Tuya colour converter calls
  JSON.parse), so converters are embedded as functions into Except.
-/

namespace SmarterThings

/-- Platform enum from unified-device.ts, with string values smartthings,
tuya and lutron. -/
inductive Platform where
  | SMARTTHINGS
  | TUYA
  | LUTRON
deriving DecidableEq

/-- String value of a Platform enum member, as used in template-literal
lookup keys. -/
def platformStr : Platform → String
  | .SMARTTHINGS => "smartthings"
  | .TUYA => "tuya"
  | .LUTRON => "lutron"

/-- DeviceCapability enum from unified-device.ts: 11 control, 14 sensor and
6 composite capabilities, 31 members in total. -/
inductive DeviceCapability where
  | SWITCH
  | DIMMER
  | COLOR
  | COLOR_TEMPERATURE
  | THERMOSTAT
  | LOCK
  | SHADE
  | FAN
  | VALVE
  | ALARM
  | DOOR_CONTROL
  | TEMPERATURE_SENSOR
  | HUMIDITY_SENSOR
  | MOTION_SENSOR
  | CONTACT_SENSOR
  | OCCUPANCY_SENSOR
  | ILLUMINANCE_SENSOR
  | BATTERY
  | AIR_QUALITY_SENSOR
  | WATER_LEAK_SENSOR
  | SMOKE_DETECTOR
  | BUTTON
  | PRESSURE_SENSOR
  | CO_DETECTOR
  | SOUND_SENSOR
  | ENERGY_METER
  | SPEAKER
  | MEDIA_PLAYER
  | CAMERA
  | ROBOT_VACUUM
  | IR_BLASTER
deriving DecidableEq

/-- String value of a DeviceCapability enum member, as used in
template-literal lookup keys. -/
def capStr : DeviceCapability → String
  | .SWITCH => "switch"
  | .DIMMER => "dimmer"
  | .COLOR => "color"
  | .COLOR_TEMPERATURE => "colorTemperature"
  | .THERMOSTAT => "thermostat"
  | .LOCK => "lock"
  | .SHADE => "shade"
  | .FAN => "fan"
  | .VALVE => "valve"
  | .ALARM => "alarm"
  | .DOOR_CONTROL => "doorControl"
  | .TEMPERATURE_SENSOR => "temperatureSensor"
  | .HUMIDITY_SENSOR => "humiditySensor"
  | .MOTION_SENSOR => "motionSensor"
  | .CONTACT_SENSOR => "contactSensor"
  | .OCCUPANCY_SENSOR => "occupancySensor"
  | .ILLUMINANCE_SENSOR => "illuminanceSensor"
  | .BATTERY => "battery"
  | .AIR_QUALITY_SENSOR => "airQualitySensor"
  | .WATER_LEAK_SENSOR => "waterLeakSensor"
  | .SMOKE_DETECTOR => "smokeDetector"
  | .BUTTON => "button"
  | .PRESSURE_SENSOR => "pressureSensor"
  | .CO_DETECTOR => "coDetector"
  | .SOUND_SENSOR => "soundSensor"
  | .ENERGY_METER => "energyMeter"
  | .SPEAKER => "speaker"
  | .MEDIA_PLAYER => "mediaPlayer"
  | .CAMERA => "camera"
  | .ROBOT_VACUUM => "robotVacuum"
  | .IR_BLASTER => "irBlaster"

/-- The 31 DeviceCapability enum variants, in declaration order. -/
def allDeviceCapabilities : List DeviceCapability :=
  [.SWITCH, .DIMMER, .COLOR, .COLOR_TEMPERATURE, .THERMOSTAT, .LOCK, .SHADE,
   .FAN, .VALVE, .ALARM, .DOOR_CONTROL,
   .TEMPERATURE_SENSOR, .HUMIDITY_SENSOR, .MOTION_SENSOR, .CONTACT_SENSOR,
   .OCCUPANCY_SENSOR, .ILLUMINANCE_SENSOR, .BATTERY, .AIR_QUALITY_SENSOR,
   .WATER_LEAK_SENSOR, .SMOKE_DETECTOR, .BUTTON, .PRESSURE_SENSOR,
   .CO_DETECTOR, .SOUND_SENSOR,
   .ENERGY_METER, .SPEAKER, .MEDIA_PLAYER, .CAMERA, .ROBOT_VACUUM,
   .IR_BLASTER]

/-- Lookup into a JavaScript Map, embedded as an association list:
Map.prototype.get, with a none result standing for undefined. -/
def mapGet {α : Type} : List (String × α) → String → Option α
  | [], _ => none
  | e :: rest, k => if e.1 = k then some e.2 else mapGet rest k

/-- Insertion into a JavaScript Map, embedded as an association list:
Map.prototype.set updates an existing key in place, keeping its insertion
position, and appends a fresh key at the end. -/
def mapSet {α : Type} : List (String × α) → String → α → List (String × α)
  | [], k, v => [(k, v)]
  | e :: rest, k, v => if e.1 = k then (k, v) :: rest else e :: mapSet rest k v

/-- Key-membership test of a JavaScript Map: Map.prototype.has. -/
def mapHas {α : Type} (m : List (String × α)) (k : String) : Bool :=
  (mapGet m k).isSome

/-- String.prototype.startsWith, embedded on the character lists underlying
Lean strings (List.isPrefixOf computes the same Bool as the byte-level
comparison in the runtime). -/
def strStartsWith (s p : String) : Bool :=
  p.data.isPrefixOf s.data

/-- PlatformCapabilityMapping interface from capability-registry.ts. -/
structure PlatformCapabilityMapping where
  platform : Platform
  platformCapability : String
  unifiedCapability : DeviceCapability
  conversionRequired : Bool
  notes : Option String := none
  deprecated : Option Bool := none
  deprecationMessage : Option String := none
deriving DecidableEq

/-- The two static maps of class CapabilityRegistry: forward mappings keyed
by platform:platformCapability and reverse mappings keyed by
platform:unifiedCapability. -/
structure RegistryState where
  mappings : List (String × PlatformCapabilityMapping) := []
  reverseMappings : List (String × String) := []
deriving DecidableEq

namespace CapabilityRegistry

/-- CapabilityRegistry.makeKey: the template literal platform:capability. -/
def makeKey (platform : Platform) (capability : String) : String :=
  platformStr platform ++ ":" ++ capability

/-- CapabilityRegistry.register: inserts the forward entry and the reverse
entry. The console.warn emitted for deprecated mappings is an observability
side effect with no bearing on the stored state and is not modelled. -/
def register (st : RegistryState) (m : PlatformCapabilityMapping) : RegistryState :=
  { mappings := mapSet st.mappings (makeKey m.platform m.platformCapability) m,
    reverseMappings :=
      mapSet st.reverseMappings (makeKey m.platform (capStr m.unifiedCapability))
        m.platformCapability }

/-- CapabilityRegistry.getUnifiedCapability: forward lookup, null when the
key is absent. -/
def getUnifiedCapability (st : RegistryState) (platform : Platform)
    (platformCapability : String) : Option DeviceCapability :=
  (mapGet st.mappings (makeKey platform platformCapability)).map
    (fun m => m.unifiedCapability)

/-- CapabilityRegistry.getPlatformCapability: reverse lookup, null when the
key is absent. -/
def getPlatformCapability (st : RegistryState) (platform : Platform)
    (unifiedCapability : DeviceCapability) : Option String :=
  mapGet st.reverseMappings (makeKey platform (capStr unifiedCapability))

/-- CapabilityRegistry.isPlatformSupported: reverse-map key membership. -/
def isPlatformSupported (st : RegistryState) (platform : Platform)
    (capability : DeviceCapability) : Bool :=
  mapHas st.reverseMappings (makeKey platform (capStr capability))

/-- CapabilityRegistry.getSupportedCapabilities: iterates the forward map in
insertion order and pushes the unified capability of every entry whose key
starts with the platform prefix. -/
def getSupportedCapabilities (st : RegistryState) (platform : Platform) :
    List DeviceCapability :=
  (st.mappings.filter (fun e => strStartsWith e.1 (platformStr platform ++ ":"))).map
    (fun e => e.2.unifiedCapability)

/-- CapabilityRegistry.getPlatformCapabilities: iterates the forward map in
insertion order and pushes the platform capability name of every entry
whose key starts with the platform prefix. -/
def getPlatformCapabilities (st : RegistryState) (platform : Platform) :
    List String :=
  (st.mappings.filter (fun e => strStartsWith e.1 (platformStr platform ++ ":"))).map
    (fun e => e.2.platformCapability)

/-- CapabilityRegistry.getMapping: forward lookup of the full record. -/
def getMapping (st : RegistryState) (platform : Platform)
    (platformCapability : String) : Option PlatformCapabilityMapping :=
  mapGet st.mappings (makeKey platform platformCapability)

/-- CapabilityRegistry.clear: wipes both maps. -/
def clear (_st : RegistryState) : RegistryState := {}

/-- CapabilityRegistry.getMappingCount: Map.size of the forward map. -/
def getMappingCount (st : RegistryState) : Nat :=
  st.mappings.length

end CapabilityRegistry

/-- The 60 register calls of initializeCapabilityMappings in source order:
32 SmartThings, 22 Tuya and 6 Lutron registrations (the two Lutron OUTPUT
registrations share a forward key, so the forward map ends up with 59
entries). -/
def standardMappings : List PlatformCapabilityMapping :=
  [{ platform := .SMARTTHINGS, platformCapability := "switch",
     unifiedCapability := .SWITCH, conversionRequired := false },
   { platform := .SMARTTHINGS, platformCapability := "switchLevel",
     unifiedCapability := .DIMMER, conversionRequired := false },
   { platform := .SMARTTHINGS, platformCapability := "colorControl",
     unifiedCapability := .COLOR, conversionRequired := true,
     notes := some "Hue: 0-100 (%) → 0-360 (degrees)" },
   { platform := .SMARTTHINGS, platformCapability := "colorTemperature",
     unifiedCapability := .COLOR_TEMPERATURE, conversionRequired := false },
   { platform := .SMARTTHINGS, platformCapability := "thermostat",
     unifiedCapability := .THERMOSTAT, conversionRequired := false,
     notes := some "Composite of 8 SmartThings capabilities" },
   { platform := .SMARTTHINGS, platformCapability := "lock",
     unifiedCapability := .LOCK, conversionRequired := false },
   { platform := .SMARTTHINGS, platformCapability := "windowShade",
     unifiedCapability := .SHADE, conversionRequired := false },
   { platform := .SMARTTHINGS, platformCapability := "fanSpeed",
     unifiedCapability := .FAN, conversionRequired := false },
   { platform := .SMARTTHINGS, platformCapability := "valve",
     unifiedCapability := .VALVE, conversionRequired := false },
   { platform := .SMARTTHINGS, platformCapability := "alarm",
     unifiedCapability := .ALARM, conversionRequired := false },
   { platform := .SMARTTHINGS, platformCapability := "doorControl",
     unifiedCapability := .DOOR_CONTROL, conversionRequired := false },
   { platform := .SMARTTHINGS, platformCapability := "garageDoorControl",
     unifiedCapability := .DOOR_CONTROL, conversionRequired := false,
     notes := some "Alias for doorControl" },
   { platform := .SMARTTHINGS, platformCapability := "temperatureMeasurement",
     unifiedCapability := .TEMPERATURE_SENSOR, conversionRequired := false },
   { platform := .SMARTTHINGS, platformCapability := "relativeHumidityMeasurement",
     unifiedCapability := .HUMIDITY_SENSOR, conversionRequired := false },
   { platform := .SMARTTHINGS, platformCapability := "motionSensor",
     unifiedCapability := .MOTION_SENSOR, conversionRequired := false },
   { platform := .SMARTTHINGS, platformCapability := "contactSensor",
     unifiedCapability := .CONTACT_SENSOR, conversionRequired := false },
   { platform := .SMARTTHINGS, platformCapability := "illuminanceMeasurement",
     unifiedCapability := .ILLUMINANCE_SENSOR, conversionRequired := false },
   { platform := .SMARTTHINGS, platformCapability := "battery",
     unifiedCapability := .BATTERY, conversionRequired := false },
   { platform := .SMARTTHINGS, platformCapability := "airQualitySensor",
     unifiedCapability := .AIR_QUALITY_SENSOR, conversionRequired := false },
   { platform := .SMARTTHINGS, platformCapability := "waterSensor",
     unifiedCapability := .WATER_LEAK_SENSOR, conversionRequired := false },
   { platform := .SMARTTHINGS, platformCapability := "smokeDetector",
     unifiedCapability := .SMOKE_DETECTOR, conversionRequired := false },
   { platform := .SMARTTHINGS, platformCapability := "button",
     unifiedCapability := .BUTTON, conversionRequired := false },
   { platform := .SMARTTHINGS, platformCapability := "pressureMeasurement",
     unifiedCapability := .PRESSURE_SENSOR, conversionRequired := false },
   { platform := .SMARTTHINGS, platformCapability := "carbonMonoxideDetector",
     unifiedCapability := .CO_DETECTOR, conversionRequired := false },
   { platform := .SMARTTHINGS, platformCapability := "soundPressureLevel",
     unifiedCapability := .SOUND_SENSOR, conversionRequired := false },
   { platform := .SMARTTHINGS, platformCapability := "powerMeter",
     unifiedCapability := .ENERGY_METER, conversionRequired := false,
     notes := some "Composite with energyMeter" },
   { platform := .SMARTTHINGS, platformCapability := "audioVolume",
     unifiedCapability := .SPEAKER, conversionRequired := false },
   { platform := .SMARTTHINGS, platformCapability := "mediaPlayback",
     unifiedCapability := .MEDIA_PLAYER, conversionRequired := false },
   { platform := .SMARTTHINGS, platformCapability := "videoStream",
     unifiedCapability := .CAMERA, conversionRequired := false },
   { platform := .SMARTTHINGS, platformCapability := "robotCleanerMovement",
     unifiedCapability := .ROBOT_VACUUM, conversionRequired := false },
   { platform := .SMARTTHINGS, platformCapability := "infraredLevel",
     unifiedCapability := .IR_BLASTER, conversionRequired := false },
   { platform := .SMARTTHINGS, platformCapability := "momentary",
     unifiedCapability := .BUTTON, conversionRequired := false,
     deprecated := some true,
     deprecationMessage := some "Use \"button\" capability instead" },
   { platform := .TUYA, platformCapability := "switch_led",
     unifiedCapability := .SWITCH, conversionRequired := false },
   { platform := .TUYA, platformCapability := "bright_value",
     unifiedCapability := .DIMMER, conversionRequired := true,
     notes := some "0-1000 → 0-100" },
   { platform := .TUYA, platformCapability := "colour_data",
     unifiedCapability := .COLOR, conversionRequired := true,
     notes := some "HSV JSON string → HSV object" },
   { platform := .TUYA, platformCapability := "temp_value",
     unifiedCapability := .COLOR_TEMPERATURE, conversionRequired := true,
     notes := some "Device-specific range → Kelvin" },
   { platform := .TUYA, platformCapability := "temp_set",
     unifiedCapability := .THERMOSTAT, conversionRequired := false },
   { platform := .TUYA, platformCapability := "lock_motor_state",
     unifiedCapability := .LOCK, conversionRequired := true,
     notes := some "Map Tuya lock states" },
   { platform := .TUYA, platformCapability := "position",
     unifiedCapability := .SHADE, conversionRequired := false },
   { platform := .TUYA, platformCapability := "fan_speed",
     unifiedCapability := .FAN, conversionRequired := false },
   { platform := .TUYA, platformCapability := "switch_1",
     unifiedCapability := .VALVE, conversionRequired := false },
   { platform := .TUYA, platformCapability := "alarm_switch",
     unifiedCapability := .ALARM, conversionRequired := false },
   { platform := .TUYA, platformCapability := "temp_current",
     unifiedCapability := .TEMPERATURE_SENSOR, conversionRequired := true,
     notes := some "C/F conversion may be needed" },
   { platform := .TUYA, platformCapability := "humidity_value",
     unifiedCapability := .HUMIDITY_SENSOR, conversionRequired := false },
   { platform := .TUYA, platformCapability := "pir",
     unifiedCapability := .MOTION_SENSOR, conversionRequired := true,
     notes := some "Map pir/none to active/inactive" },
   { platform := .TUYA, platformCapability := "doorcontact_state",
     unifiedCapability := .CONTACT_SENSOR, conversionRequired := true,
     notes := some "Map boolean to open/closed" },
   { platform := .TUYA, platformCapability := "battery_percentage",
     unifiedCapability := .BATTERY, conversionRequired := false },
   { platform := .TUYA, platformCapability := "pm25_value",
     unifiedCapability := .AIR_QUALITY_SENSOR, conversionRequired := false },
   { platform := .TUYA, platformCapability := "watersensor_state",
     unifiedCapability := .WATER_LEAK_SENSOR, conversionRequired := true,
     notes := some "Map Tuya states to dry/wet" },
   { platform := .TUYA, platformCapability := "smoke_sensor_status",
     unifiedCapability := .SMOKE_DETECTOR, conversionRequired := true,
     notes := some "Map Tuya states" },
   { platform := .TUYA, platformCapability := "cur_power",
     unifiedCapability := .ENERGY_METER, conversionRequired := false },
   { platform := .TUYA, platformCapability := "volume",
     unifiedCapability := .SPEAKER, conversionRequired := false },
   { platform := .TUYA, platformCapability := "work_state",
     unifiedCapability := .MEDIA_PLAYER, conversionRequired := true,
     notes := some "Map work_state enum" },
   { platform := .TUYA, platformCapability := "basic_device_status",
     unifiedCapability := .CAMERA, conversionRequired := true,
     notes := some "Complex mapping" },
   { platform := .LUTRON, platformCapability := "OUTPUT",
     unifiedCapability := .SWITCH, conversionRequired := true,
     notes := some "Binary 0% or 100% only" },
   { platform := .LUTRON, platformCapability := "OUTPUT",
     unifiedCapability := .DIMMER, conversionRequired := true,
     notes := some "Round 0.00-100.00 to 0-100" },
   { platform := .LUTRON, platformCapability := "POSITION",
     unifiedCapability := .SHADE, conversionRequired := false },
   { platform := .LUTRON, platformCapability := "TILT",
     unifiedCapability := .SHADE, conversionRequired := false,
     notes := some "Shade tilt control" },
   { platform := .LUTRON, platformCapability := "OCCUPANCY",
     unifiedCapability := .OCCUPANCY_SENSOR, conversionRequired := true,
     notes := some "Map occupied/unoccupied" },
   { platform := .LUTRON, platformCapability := "FAN_SPEED",
     unifiedCapability := .FAN, conversionRequired := false,
     notes := some "RadioRA3 only" }]

/-- initializeCapabilityMappings: performs the 60 register calls in source
order against the given registry state. -/
def initializeCapabilityMappings (st : RegistryState) : RegistryState :=
  standardMappings.foldl CapabilityRegistry.register st

/-- The capability registry state right after module load, when
initializeCapabilityMappings has run against the empty maps. -/
def initRegistry : RegistryState :=
  initializeCapabilityMappings {}

/-- JavaScript values flowing through the value-conversion layer: numbers
(embedded as rationals), strings, and the flat HSV object with fields h, s
and v that the Tuya colour converter produces and consumes. -/
inductive JSValue where
  | num : ℚ → JSValue
  | str : String → JSValue
  | hsv : ℚ → ℚ → ℚ → JSValue
deriving DecidableEq

/-- Math.round: round half towards positive infinity, which is
Int.floor (x + 1/2). -/
def jsRound (q : ℚ) : ℤ :=
  ⌊q + 1 / 2⌋

/-- Number.prototype.toFixed(2) followed by Number(...): rounds to two
decimal places. For the nonnegative in-range levels this converter receives
the decimal rounding of toFixed agrees with floor (100 q + 1/2) / 100. -/
def toFixed2 (q : ℚ) : ℚ :=
  ((jsRound (q * 100) : ℤ) : ℚ) / 100

/-- Consume leading decimal digits, accumulating their value. -/
def parseDigits : List Char → Nat → Nat × List Char
  | [], acc => (acc, [])
  | c :: rest, acc =>
      if c.isDigit then parseDigits rest (acc * 10 + (c.toNat - 48))
      else (acc, c :: rest)

/-- Parse a nonnegative decimal integer literal (at least one digit). -/
def parseNum : List Char → Option (Nat × List Char)
  | [] => none
  | c :: rest =>
      if c.isDigit then some (parseDigits rest (c.toNat - 48)) else none

/-- Match an exact character sequence, returning the remaining input. -/
def parseExact : List Char → List Char → Option (List Char)
  | [], input => some input
  | _ :: _, [] => none
  | e :: es, c :: cs => if c = e then parseExact es cs else none

/-- Parse the canonical serialized HSV object, the exact shape
JSON.stringify produces in the Tuya colour converter: an object with
integer fields h, s and v and no whitespace. -/
def jsonParseHSVBody (cs : List Char) : Option (ℚ × ℚ × ℚ) := do
  let cs ← parseExact ('{' :: '"' :: 'h' :: '"' :: ':' :: []) cs
  let (h, cs) ← parseNum cs
  let cs ← parseExact (',' :: '"' :: 's' :: '"' :: ':' :: []) cs
  let (s, cs) ← parseNum cs
  let cs ← parseExact (',' :: '"' :: 'v' :: '"' :: ':' :: []) cs
  let (v, cs) ← parseNum cs
  let cs ← parseExact ('}' :: []) cs
  match cs with
  | [] => some ((h : ℚ), (s : ℚ), (v : ℚ))
  | _ => none

/-- Host-library model of JSON.parse as used by the Tuya colour converter:
it accepts the canonical flat HSV object serialization and throws a
SyntaxError on everything else. Real JSON.parse also accepts whitespace
variants and other JSON shapes; no claim in this development depends on
those inputs. -/
def jsonParseHSV (s : String) : Except String (ℚ × ℚ × ℚ) :=
  match jsonParseHSVBody s.data with
  | some t => .ok t
  | none => .error ("SyntaxError: Unexpected token in JSON: " ++ s)

/-!
The four converter pairs registered by initializeValueConversions. On
arguments outside the shape fixed by the registration call site (a number
for the dimmer and hue converters, an HSV object or encoded string for the
colour converter) the JavaScript originals fall into implicit coercion,
typically producing NaN; those off-contract inputs are embedded as errors
and no claim depends on them.
-/

/-- Tuya dimmer level, unified to platform: Math.round(value * 10). -/
def tuyaDimmerLevelToPlatform : JSValue → Except String JSValue
  | .num v => .ok (.num ((jsRound (v * 10) : ℤ) : ℚ))
  | _ => .error "TypeError: expected a number"

/-- Tuya dimmer level, platform to unified: Math.round(value / 10). -/
def tuyaDimmerLevelFromPlatform : JSValue → Except String JSValue
  | .num v => .ok (.num ((jsRound (v / 10) : ℤ) : ℚ))
  | _ => .error "TypeError: expected a number"

/-- SmartThings hue, unified to platform: Math.round(value / 3.6). -/
def smartthingsHueToPlatform : JSValue → Except String JSValue
  | .num v => .ok (.num ((jsRound (v / (36 / 10)) : ℤ) : ℚ))
  | _ => .error "TypeError: expected a number"

/-- SmartThings hue, platform to unified: Math.round(value * 3.6). -/
def smartthingsHueFromPlatform : JSValue → Except String JSValue
  | .num v => .ok (.num ((jsRound (v * (36 / 10)) : ℤ) : ℚ))
  | _ => .error "TypeError: expected a number"

/-- Tuya colour, unified to platform: JSON.stringify of the object with h
and s rounded and v scaled by 2.55 and rounded. -/
def tuyaColorToPlatform : JSValue → Except String JSValue
  | .hsv h s v =>
      .ok (.str ("\x7b\"h\":" ++ toString (jsRound h) ++ ",\"s\":"
        ++ toString (jsRound s) ++ ",\"v\":"
        ++ toString (jsRound (v * (255 / 100))) ++ "\x7d"))
  | _ => .error "TypeError: expected an HSV object"

/-- Tuya colour, platform to unified: JSON.parse of the encoded string,
passing h and s through and computing Math.round(v / 2.55). A parse
failure propagates as the error raised by JSON.parse. -/
def tuyaColorFromPlatform : JSValue → Except String JSValue
  | .str s => do
      let (h, sat, v) ← jsonParseHSV s
      return .hsv h sat ((jsRound (v / (255 / 100)) : ℤ) : ℚ)
  | _ => .error "TypeError: expected a string"

/-- Lutron output level, unified to platform: Number(value.toFixed(2)). -/
def lutronDimmerLevelToPlatform : JSValue → Except String JSValue
  | .num v => .ok (.num (toFixed2 v))
  | _ => .error "TypeError: expected a number"

/-- Lutron output level, platform to unified: Math.round(value). -/
def lutronDimmerLevelFromPlatform : JSValue → Except String JSValue
  | .num v => .ok (.num ((jsRound v : ℤ) : ℚ))
  | _ => .error "TypeError: expected a number"

/-- ValueConversionMapping interface from capability-registry.ts. The
source field named attribute is spelled attr here because attribute is a
Lean keyword. -/
structure ValueConversionMapping where
  platform : Platform
  capability : DeviceCapability
  attr : String
  toPlatform : JSValue → Except String JSValue
  fromPlatform : JSValue → Except String JSValue
  description : String

/-- The static conversions map of class ValueConversionRegistry, keyed by
platform:capability:attribute. -/
def ConversionState : Type :=
  List (String × ValueConversionMapping)

namespace ValueConversionRegistry

/-- ValueConversionRegistry.makeKey: the template literal
platform:capability:attribute. -/
def makeKey (platform : Platform) (capability : DeviceCapability)
    (attr : String) : String :=
  platformStr platform ++ ":" ++ capStr capability ++ ":" ++ attr

/-- ValueConversionRegistry.register: inserts or overwrites the converter
pair under its key. -/
def register (st : ConversionState) (c : ValueConversionMapping) :
    ConversionState :=
  mapSet st (makeKey c.platform c.capability c.attr) c

/-- ValueConversionRegistry.toPlatform: applies the registered unified-to-
platform converter, or returns the value unchanged when no conversion is
registered. -/
def toPlatform (st : ConversionState) (platform : Platform)
    (capability : DeviceCapability) (attr : String) (value : JSValue) :
    Except String JSValue :=
  match mapGet st (makeKey platform capability attr) with
  | none => .ok value
  | some conversion => conversion.toPlatform value

/-- ValueConversionRegistry.fromPlatform: applies the registered platform-
to-unified converter, or returns the value unchanged when no conversion is
registered. -/
def fromPlatform (st : ConversionState) (platform : Platform)
    (capability : DeviceCapability) (attr : String) (value : JSValue) :
    Except String JSValue :=
  match mapGet st (makeKey platform capability attr) with
  | none => .ok value
  | some conversion => conversion.fromPlatform value

/-- ValueConversionRegistry.hasConversion: key membership. -/
def hasConversion (st : ConversionState) (platform : Platform)
    (capability : DeviceCapability) (attr : String) : Bool :=
  mapHas st (makeKey platform capability attr)

/-- ValueConversionRegistry.getConversion: lookup of the full record. -/
def getConversion (st : ConversionState) (platform : Platform)
    (capability : DeviceCapability) (attr : String) :
    Option ValueConversionMapping :=
  mapGet st (makeKey platform capability attr)

/-- ValueConversionRegistry.clear: wipes the map. -/
def clear (_st : ConversionState) : ConversionState :=
  []

/-- ValueConversionRegistry.getConversionCount: Map.size. -/
def getConversionCount (st : ConversionState) : Nat :=
  st.length

end ValueConversionRegistry

/-- The Tuya brightness conversion record registered by
initializeValueConversions. -/
def tuyaDimmerLevelConversion : ValueConversionMapping :=
  { platform := .TUYA, capability := .DIMMER, attr := "level",
    toPlatform := tuyaDimmerLevelToPlatform,
    fromPlatform := tuyaDimmerLevelFromPlatform,
    description := "Tuya brightness scale: 0-1000 ↔ 0-100" }

/-- The SmartThings hue conversion record registered by
initializeValueConversions. -/
def smartthingsHueConversion : ValueConversionMapping :=
  { platform := .SMARTTHINGS, capability := .COLOR, attr := "hue",
    toPlatform := smartthingsHueToPlatform,
    fromPlatform := smartthingsHueFromPlatform,
    description := "SmartThings hue: 0-100% ↔ 0-360 degrees" }

/-- The Tuya colour format conversion record registered by
initializeValueConversions. -/
def tuyaColorConversion : ValueConversionMapping :=
  { platform := .TUYA, capability := .COLOR, attr := "color",
    toPlatform := tuyaColorToPlatform,
    fromPlatform := tuyaColorFromPlatform,
    description := "Tuya color: HSV JSON string ↔ HSV object" }

/-- The Lutron output level conversion record registered by
initializeValueConversions. -/
def lutronDimmerLevelConversion : ValueConversionMapping :=
  { platform := .LUTRON, capability := .DIMMER, attr := "level",
    toPlatform := lutronDimmerLevelToPlatform,
    fromPlatform := lutronDimmerLevelFromPlatform,
    description := "Lutron output: Round 0.00-100.00 to 0-100" }

/-- The four register calls of initializeValueConversions in source order. -/
def standardConversions : List ValueConversionMapping :=
  [tuyaDimmerLevelConversion, smartthingsHueConversion, tuyaColorConversion,
   lutronDimmerLevelConversion]

/-- initializeValueConversions: performs the four register calls in source
order against the given conversion state. -/
def initializeValueConversions (st : ConversionState) : ConversionState :=
  standardConversions.foldl ValueConversionRegistry.register st

/-- The conversion registry state right after module load, when
initializeValueConversions has run against the empty map. -/
def initConversions : ConversionState :=
  initializeValueConversions []

/-- An arbitrary sequence of CapabilityRegistry.register calls performed in
order against a registry state, modelling any client registration history. -/
def registerAll (st : RegistryState) (regs : List PlatformCapabilityMapping) :
    RegistryState :=
  regs.foldl CapabilityRegistry.register st

instance {ε α : Type} [DecidableEq ε] [DecidableEq α] :
    DecidableEq (Except ε α) := fun a b =>
  match a, b with
  | .ok x, .ok y =>
      if h : x = y then .isTrue (by rw [h]) else .isFalse (by simp [h])
  | .ok _, .error _ => .isFalse (by simp)
  | .error _, .ok _ => .isFalse (by simp)
  | .error x, .error y =>
      if h : x = y then .isTrue (by rw [h]) else .isFalse (by simp [h])

/-! Helper lemmas about the JavaScript Map embedding and Math.round. -/

theorem mapGet_mapSet {α : Type} (m : List (String × α)) (k : String) (v : α)
    (k2 : String) :
    mapGet (mapSet m k v) k2 = if k = k2 then some v else mapGet m k2 := by
  induction m with
  | nil => simp [mapGet, mapSet]
  | cons e rest ih =>
      simp only [mapSet]
      by_cases h1 : e.1 = k
      · simp only [if_pos h1, mapGet]
        by_cases h2 : k = k2
        · simp [h2]
        · have h3 : ¬ e.1 = k2 := by rw [h1]; exact h2
          simp [h2, h3]
      · simp only [if_neg h1, mapGet, ih]
        by_cases h2 : e.1 = k2
        · have h3 : ¬ k = k2 := fun hk => h1 (h2.trans hk.symm)
          simp [h2, h3]
        · simp [h2]

theorem mapHas_false_iff {α : Type} (m : List (String × α)) (k : String) :
    mapHas m k = false ↔ mapGet m k = none := by
  unfold mapHas
  cases mapGet m k <;> simp

theorem jsRound_intCast (n : ℤ) : jsRound (n : ℚ) = n := by
  unfold jsRound
  rw [add_comm, Int.floor_add_int]
  norm_num

theorem getUnifiedCapability_register (st : RegistryState)
    (m : PlatformCapabilityMapping) (p : Platform) (name : String) :
    CapabilityRegistry.getUnifiedCapability (CapabilityRegistry.register st m) p name
      = if CapabilityRegistry.makeKey m.platform m.platformCapability
            = CapabilityRegistry.makeKey p name
        then some m.unifiedCapability
        else CapabilityRegistry.getUnifiedCapability st p name := by
  by_cases h : CapabilityRegistry.makeKey m.platform m.platformCapability
      = CapabilityRegistry.makeKey p name <;>
    simp [CapabilityRegistry.getUnifiedCapability, CapabilityRegistry.register,
      mapGet_mapSet, h]

theorem getPlatformCapability_register (st : RegistryState)
    (m : PlatformCapabilityMapping) (p : Platform) (u : DeviceCapability) :
    CapabilityRegistry.getPlatformCapability (CapabilityRegistry.register st m) p u
      = if CapabilityRegistry.makeKey m.platform (capStr m.unifiedCapability)
            = CapabilityRegistry.makeKey p (capStr u)
        then some m.platformCapability
        else CapabilityRegistry.getPlatformCapability st p u := by
  by_cases h : CapabilityRegistry.makeKey m.platform (capStr m.unifiedCapability)
      = CapabilityRegistry.makeKey p (capStr u) <;>
    simp [CapabilityRegistry.getPlatformCapability, CapabilityRegistry.register,
      mapGet_mapSet, h]

theorem registerAll_append_singleton (st : RegistryState)
    (regs : List PlatformCapabilityMapping) (m : PlatformCapabilityMapping) :
    registerAll st (regs ++ [m])
      = CapabilityRegistry.register (registerAll st regs) m := by
  simp [registerAll]

/-- C1: for every conversion-registry state, platform, capability, attribute
and arbitrary value x, if no conversion is registered for the triple then
ValueConversionRegistry.toPlatform and fromPlatform both return x unchanged
(identity fallback, so callers need not check hasConversion first). -/
theorem C1_identity_fallback (st : ConversionState) (p : Platform)
    (c : DeviceCapability) (a : String) (x : JSValue)
    (h : ValueConversionRegistry.hasConversion st p c a = false) :
    ValueConversionRegistry.toPlatform st p c a x = .ok x
    ∧ ValueConversionRegistry.fromPlatform st p c a x = .ok x := by
  have hget : mapGet st (ValueConversionRegistry.makeKey p c a) = none :=
    (mapHas_false_iff st (ValueConversionRegistry.makeKey p c a)).mp h
  constructor
  · unfold ValueConversionRegistry.toPlatform
    rw [hget]
  · unfold ValueConversionRegistry.fromPlatform
    rw [hget]

/-- Witness for C1 at the standard initialized conversion registry, which
has no entry for the Lutron COLOR hue attribute. -/
theorem C1_identity_fallback_witness :
    ValueConversionRegistry.toPlatform initConversions .LUTRON .COLOR "hue"
      (.num 42) = .ok (.num 42)
    ∧ ValueConversionRegistry.fromPlatform initConversions .LUTRON .COLOR "hue"
      (.num 42) = .ok (.num 42) :=
  C1_identity_fallback initConversions .LUTRON .COLOR "hue" (.num 42) rfl

/-- C2: with the standard conversions initialized, the Tuya dimmer level
converter computes toPlatform v = round (v * 10) and
fromPlatform v = round (v / 10); in particular 750 maps back to 75, 75 maps
to 750, 50 maps to 500 and 500 maps back to 50, and every integer 0-100
makes an exact round trip. The JavaScript 10 is exact in the rational
embedding, so round agrees with Math.round on these inputs. -/
theorem C2_tuya_dimmer_level :
    (∀ v : ℚ,
      ValueConversionRegistry.toPlatform initConversions .TUYA .DIMMER "level"
          (.num v) = .ok (.num ((jsRound (v * 10) : ℤ) : ℚ))
      ∧ ValueConversionRegistry.fromPlatform initConversions .TUYA .DIMMER "level"
          (.num v) = .ok (.num ((jsRound (v / 10) : ℤ) : ℚ)))
    ∧ ValueConversionRegistry.fromPlatform initConversions .TUYA .DIMMER "level"
        (.num 750) = .ok (.num 75)
    ∧ ValueConversionRegistry.toPlatform initConversions .TUYA .DIMMER "level"
        (.num 75) = .ok (.num 750)
    ∧ ValueConversionRegistry.toPlatform initConversions .TUYA .DIMMER "level"
        (.num 50) = .ok (.num 500)
    ∧ ValueConversionRegistry.fromPlatform initConversions .TUYA .DIMMER "level"
        (.num 500) = .ok (.num 50)
    ∧ ∀ v : ℕ, v ≤ 100 → ∃ w,
        ValueConversionRegistry.toPlatform initConversions .TUYA .DIMMER "level"
          (.num (v : ℚ)) = .ok w
        ∧ ValueConversionRegistry.fromPlatform initConversions .TUYA .DIMMER "level"
            w = .ok (.num (v : ℚ)) := by
  refine ⟨fun v => ⟨rfl, rfl⟩, ?_, ?_, ?_, ?_, ?_⟩
  · show Except.ok (JSValue.num ((jsRound ((750 : ℚ) / 10) : ℤ) : ℚ))
      = Except.ok (JSValue.num 75)
    norm_num [jsRound]
  · show Except.ok (JSValue.num ((jsRound ((75 : ℚ) * 10) : ℤ) : ℚ))
      = Except.ok (JSValue.num 750)
    norm_num [jsRound]
  · show Except.ok (JSValue.num ((jsRound ((50 : ℚ) * 10) : ℤ) : ℚ))
      = Except.ok (JSValue.num 500)
    norm_num [jsRound]
  · show Except.ok (JSValue.num ((jsRound ((500 : ℚ) / 10) : ℤ) : ℚ))
      = Except.ok (JSValue.num 50)
    norm_num [jsRound]
  · intro v _
    refine ⟨.num ((10 * v : ℤ) : ℚ), ?_, ?_⟩
    · show Except.ok (JSValue.num ((jsRound ((v : ℚ) * 10) : ℤ) : ℚ))
        = Except.ok (JSValue.num ((10 * v : ℤ) : ℚ))
      have hv : ((v : ℚ) * 10) = ((10 * v : ℤ) : ℚ) := by push_cast; ring
      rw [hv, jsRound_intCast]
    · show Except.ok (JSValue.num ((jsRound (((10 * v : ℤ) : ℚ) / 10) : ℤ) : ℚ))
        = Except.ok (JSValue.num (v : ℚ))
      have hv : (((10 * v : ℤ) : ℚ) / 10) = ((v : ℤ) : ℚ) := by push_cast; ring
      rw [hv, jsRound_intCast]
      norm_num

/-- Witness for C2 at the concrete in-range integer 7: the round trip
through the Tuya dimmer conversion is exact. -/
theorem C2_tuya_dimmer_level_witness :
    ∃ w,
      ValueConversionRegistry.toPlatform initConversions .TUYA .DIMMER "level"
        (.num ((7 : ℕ) : ℚ)) = .ok w
      ∧ ValueConversionRegistry.fromPlatform initConversions .TUYA .DIMMER "level"
          w = .ok (.num ((7 : ℕ) : ℚ)) :=
  C2_tuya_dimmer_level.2.2.2.2.2 7 (by norm_num)

/-- C3: with the standard conversions initialized, the SmartThings COLOR hue
converter computes toPlatform v = round (v / 3.6) and
fromPlatform v = round (v * 3.6); in particular 50 percent maps to 180
degrees and 270 degrees maps to 75 percent. The JavaScript literal 3.6 is
embedded as the rational 36 / 10. -/
theorem C3_smartthings_hue :
    (∀ v : ℚ,
      ValueConversionRegistry.toPlatform initConversions .SMARTTHINGS .COLOR "hue"
          (.num v) = .ok (.num ((jsRound (v / (36 / 10)) : ℤ) : ℚ))
      ∧ ValueConversionRegistry.fromPlatform initConversions .SMARTTHINGS .COLOR "hue"
          (.num v) = .ok (.num ((jsRound (v * (36 / 10)) : ℤ) : ℚ)))
    ∧ ValueConversionRegistry.fromPlatform initConversions .SMARTTHINGS .COLOR "hue"
        (.num 50) = .ok (.num 180)
    ∧ ValueConversionRegistry.toPlatform initConversions .SMARTTHINGS .COLOR "hue"
        (.num 270) = .ok (.num 75) := by
  refine ⟨fun v => ⟨rfl, rfl⟩, ?_, ?_⟩
  · show Except.ok (JSValue.num ((jsRound ((50 : ℚ) * (36 / 10)) : ℤ) : ℚ))
      = Except.ok (JSValue.num 180)
    norm_num [jsRound]
  · show Except.ok (JSValue.num ((jsRound ((270 : ℚ) / (36 / 10)) : ℤ) : ℚ))
      = Except.ok (JSValue.num 75)
    norm_num [jsRound]

/-- C7: the SmartThings hue conversion is not an exact round trip for all
inputs: 100 degrees goes to 28 percent, which comes back as 101 degrees,
while 270 degrees round-trips exactly through 75 percent. -/
theorem C7_hue_roundtrip_drift :
    ValueConversionRegistry.toPlatform initConversions .SMARTTHINGS .COLOR "hue"
        (.num 100) = .ok (.num 28)
    ∧ ValueConversionRegistry.fromPlatform initConversions .SMARTTHINGS .COLOR "hue"
        (.num 28) = .ok (.num 101)
    ∧ (JSValue.num 101 : JSValue) ≠ .num 100
    ∧ ValueConversionRegistry.toPlatform initConversions .SMARTTHINGS .COLOR "hue"
        (.num 270) = .ok (.num 75)
    ∧ ValueConversionRegistry.fromPlatform initConversions .SMARTTHINGS .COLOR "hue"
        (.num 75) = .ok (.num 270) := by
  refine ⟨?_, ?_, by simp, ?_, ?_⟩
  · show Except.ok (JSValue.num ((jsRound ((100 : ℚ) / (36 / 10)) : ℤ) : ℚ))
      = Except.ok (JSValue.num 28)
    norm_num [jsRound]
  · show Except.ok (JSValue.num ((jsRound ((28 : ℚ) * (36 / 10)) : ℤ) : ℚ))
      = Except.ok (JSValue.num 101)
    norm_num [jsRound]
  · show Except.ok (JSValue.num ((jsRound ((270 : ℚ) / (36 / 10)) : ℤ) : ℚ))
      = Except.ok (JSValue.num 75)
    norm_num [jsRound]
  · show Except.ok (JSValue.num ((jsRound ((75 : ℚ) * (36 / 10)) : ℤ) : ℚ))
      = Except.ok (JSValue.num 270)
    norm_num [jsRound]

/-- C4 counterexample: after the standard initialization the SmartThings
result of getSupportedCapabilities contains duplicates, because doorControl
and garageDoorControl both map to DOOR_CONTROL (and button and momentary
both map to BUTTON), so the claimed no-duplicates property fails. -/
theorem C4_counterexample :
    ¬ (CapabilityRegistry.getSupportedCapabilities initRegistry
        .SMARTTHINGS).Nodup := by
  decide

/-- C4 amended: every element of getSupportedCapabilities is one of the 31
DeviceCapability enum variants, for every registry state and platform; the
returned list may however contain duplicate entries when several platform
names map to the same unified capability. -/
theorem C4_supported_subset (st : RegistryState) (p : Platform)
    (c : DeviceCapability)
    (_h : c ∈ CapabilityRegistry.getSupportedCapabilities st p) :
    c ∈ allDeviceCapabilities := by
  cases c <;> decide

/-- Witness for the amended C4 at the initialized registry: DIMMER is
reported for Lutron and is one of the 31 variants. -/
theorem C4_supported_subset_witness :
    DeviceCapability.DIMMER
        ∈ CapabilityRegistry.getSupportedCapabilities initRegistry .LUTRON
    ∧ DeviceCapability.DIMMER ∈ allDeviceCapabilities :=
  ⟨by decide, C4_supported_subset initRegistry .LUTRON .DIMMER (by decide)⟩

/-- C5: registration is last-write-wins. For any sequence of register calls
performed on a cleared registry, getUnifiedCapability returns the unified
capability of the most recent registration whose forward key equals the
queried key, and getPlatformCapability returns the platform name of the
most recent registration whose reverse key equals the queried key; in
particular a unique alias is returned as is, and with several aliases the
most recently registered one wins. -/
theorem C5_last_write_wins (regs : List PlatformCapabilityMapping)
    (p : Platform) (name : String) (u : DeviceCapability) :
    CapabilityRegistry.getUnifiedCapability (registerAll {} regs) p name
      = (regs.reverse.find? (fun m =>
          CapabilityRegistry.makeKey m.platform m.platformCapability
            == CapabilityRegistry.makeKey p name)).map
          (fun m => m.unifiedCapability)
    ∧ CapabilityRegistry.getPlatformCapability (registerAll {} regs) p u
      = (regs.reverse.find? (fun m =>
          CapabilityRegistry.makeKey m.platform (capStr m.unifiedCapability)
            == CapabilityRegistry.makeKey p (capStr u))).map
          (fun m => m.platformCapability) := by
  constructor
  · induction regs using List.reverseRecOn with
    | nil => rfl
    | append_singleton xs m ih =>
        rw [registerAll_append_singleton, getUnifiedCapability_register, ih]
        by_cases h : CapabilityRegistry.makeKey m.platform m.platformCapability
            = CapabilityRegistry.makeKey p name <;>
          simp [h, List.find?_cons]
  · induction regs using List.reverseRecOn with
    | nil => rfl
    | append_singleton xs m ih =>
        rw [registerAll_append_singleton, getPlatformCapability_register, ih]
        by_cases h : CapabilityRegistry.makeKey m.platform
            (capStr m.unifiedCapability)
            = CapabilityRegistry.makeKey p (capStr u) <;>
          simp [h, List.find?_cons]

/-- C6: after standard initialization the two support views diverge for
Lutron SWITCH. The reverse entry written by the OUTPUT-to-SWITCH
registration survives, so isPlatformSupported is true and
getPlatformCapability returns OUTPUT, but the forward entry under the key
lutron:OUTPUT was overwritten by the later DIMMER registration, so SWITCH
is absent from getSupportedCapabilities and getUnifiedCapability maps
OUTPUT to DIMMER. -/
theorem C6_lutron_switch_divergence :
    CapabilityRegistry.isPlatformSupported initRegistry .LUTRON .SWITCH = true
    ∧ CapabilityRegistry.getPlatformCapability initRegistry .LUTRON .SWITCH
        = some "OUTPUT"
    ∧ DeviceCapability.SWITCH
        ∉ CapabilityRegistry.getSupportedCapabilities initRegistry .LUTRON
    ∧ CapabilityRegistry.getUnifiedCapability initRegistry .LUTRON "OUTPUT"
        = some .DIMMER := by
  refine ⟨by decide, by decide, by decide, by decide⟩

/-- C8: no CapabilityRegistry operation signals absence by an exception. In
this embedding every operation is a total function (register, clear and
getMappingCount included), and a lookup whose key is not registered returns
the null sentinel, false, or the empty list: absent forward keys make
getUnifiedCapability and getMapping return none, absent reverse keys make
getPlatformCapability return none and isPlatformSupported false, and a
platform with no forward entries gets empty lists from
getSupportedCapabilities and getPlatformCapabilities. -/
theorem C8_no_throw_sentinels (st : RegistryState) (p : Platform)
    (name : String) (u : DeviceCapability) :
    (mapHas st.mappings (CapabilityRegistry.makeKey p name) = false →
      CapabilityRegistry.getUnifiedCapability st p name = none
      ∧ CapabilityRegistry.getMapping st p name = none)
    ∧ (mapHas st.reverseMappings (CapabilityRegistry.makeKey p (capStr u))
          = false →
      CapabilityRegistry.getPlatformCapability st p u = none
      ∧ CapabilityRegistry.isPlatformSupported st p u = false)
    ∧ ((∀ e ∈ st.mappings,
          strStartsWith e.1 (platformStr p ++ ":") = false) →
      CapabilityRegistry.getSupportedCapabilities st p = []
      ∧ CapabilityRegistry.getPlatformCapabilities st p = []) := by
  refine ⟨fun h => ?_, fun h => ?_, fun h => ?_⟩
  · have hget := (mapHas_false_iff _ _).mp h
    constructor
    · unfold CapabilityRegistry.getUnifiedCapability
      rw [hget]
      rfl
    · unfold CapabilityRegistry.getMapping
      rw [hget]
  · have hget := (mapHas_false_iff _ _).mp h
    constructor
    · unfold CapabilityRegistry.getPlatformCapability
      rw [hget]
    · unfold CapabilityRegistry.isPlatformSupported mapHas
      rw [hget]
      rfl
  · have hfil : st.mappings.filter
        (fun e => strStartsWith e.1 (platformStr p ++ ":")) = [] := by
      rw [List.filter_eq_nil_iff]
      intro e he
      simp [h e he]
    constructor
    · unfold CapabilityRegistry.getSupportedCapabilities
      rw [hfil]
      rfl
    · unfold CapabilityRegistry.getPlatformCapabilities
      rw [hfil]
      rfl

/-- Witness for C8 at the empty registry with concrete arguments. -/
theorem C8_no_throw_sentinels_witness :
    (CapabilityRegistry.getUnifiedCapability {} .TUYA "mystery" = none
      ∧ CapabilityRegistry.getMapping {} .TUYA "mystery" = none)
    ∧ (CapabilityRegistry.getPlatformCapability {} .LUTRON .COLOR = none
      ∧ CapabilityRegistry.isPlatformSupported {} .LUTRON .COLOR = false)
    ∧ (CapabilityRegistry.getSupportedCapabilities {} .SMARTTHINGS = []
      ∧ CapabilityRegistry.getPlatformCapabilities {} .SMARTTHINGS = []) :=
  ⟨(C8_no_throw_sentinels {} .TUYA "mystery" .COLOR).1 rfl,
   (C8_no_throw_sentinels {} .LUTRON "x" .COLOR).2.1 rfl,
   (C8_no_throw_sentinels {} .SMARTTHINGS "x" .COLOR).2.2
     (by intro e he; cases he)⟩

/-- C9: after running the two initialization routines on cleared registries
the forward map has 59 entries, which exceeds 50, and the conversion map
has exactly 4 entries; clearing both registries and re-running the same
routines reproduces the identical states, hence the identical counts. -/
theorem C9_init_counts :
    CapabilityRegistry.getMappingCount initRegistry = 59
    ∧ 50 < CapabilityRegistry.getMappingCount initRegistry
    ∧ ValueConversionRegistry.getConversionCount initConversions = 4
    ∧ 4 ≤ ValueConversionRegistry.getConversionCount initConversions
    ∧ initializeCapabilityMappings (CapabilityRegistry.clear initRegistry)
        = initRegistry
    ∧ initializeValueConversions (ValueConversionRegistry.clear initConversions)
        = initConversions
    ∧ CapabilityRegistry.getMappingCount
        (initializeCapabilityMappings (CapabilityRegistry.clear initRegistry))
        = CapabilityRegistry.getMappingCount initRegistry
    ∧ ValueConversionRegistry.getConversionCount
        (initializeValueConversions
          (ValueConversionRegistry.clear initConversions))
        = ValueConversionRegistry.getConversionCount initConversions := by
  refine ⟨by decide, by decide, rfl, by decide, rfl, rfl, rfl, rfl⟩

/-- C10: a registered converter's failure propagates unchanged through the
registry. Whenever a conversion is registered for a triple, toPlatform and
fromPlatform return exactly what the stored converter returns, without
catching, wrapping or reclassifying; for the Tuya COLOR color converter on
a string that is not valid JSON the result is precisely the JSON.parse
error raised inside the converter. The registries are values in this
embedding and no operation returns a modified state, mirroring that the
failed call leaves the stored state unchanged. -/
theorem C10_error_propagation :
    (∀ (st : ConversionState) (p : Platform) (c : DeviceCapability)
        (a : String) (x : JSValue) (conv : ValueConversionMapping),
      ValueConversionRegistry.getConversion st p c a = some conv →
        ValueConversionRegistry.toPlatform st p c a x = conv.toPlatform x
        ∧ ValueConversionRegistry.fromPlatform st p c a x = conv.fromPlatform x)
    ∧ ValueConversionRegistry.fromPlatform initConversions .TUYA .COLOR "color"
        (.str "not json") = tuyaColorFromPlatform (.str "not json")
    ∧ ValueConversionRegistry.fromPlatform initConversions .TUYA .COLOR "color"
        (.str "not json")
        = .error "SyntaxError: Unexpected token in JSON: not json" := by
  refine ⟨fun st p c a x conv h => ?_, rfl, by decide⟩
  constructor
  · unfold ValueConversionRegistry.toPlatform
    rw [show mapGet st (ValueConversionRegistry.makeKey p c a) = some conv
      from h]
  · unfold ValueConversionRegistry.fromPlatform
    rw [show mapGet st (ValueConversionRegistry.makeKey p c a) = some conv
      from h]

/-- Witness for C10: the registered Tuya colour conversion record is what
fromPlatform and toPlatform dispatch to, unmodified. -/
theorem C10_error_propagation_witness :
    ValueConversionRegistry.toPlatform initConversions .TUYA .COLOR "color"
        (.str "oops") = tuyaColorConversion.toPlatform (.str "oops")
    ∧ ValueConversionRegistry.fromPlatform initConversions .TUYA .COLOR "color"
        (.str "oops") = tuyaColorConversion.fromPlatform (.str "oops") :=
  C10_error_propagation.1 initConversions .TUYA .COLOR "color" (.str "oops")
    tuyaColorConversion rfl

end SmarterThings
